import Mathlib

/-!
Verification development for the `genai-rag` conversational orchestration
layer.  The definitions below are a shallow embedding of the Python sources
under `app/core/` (`tool_detector.py`, `conversation_flow.py`,
`guardrails.py`, `chat_manager.py`).

Modelling conventions:
* Python strings are Lean `String`s; regular-expression work is done over
  `List Char`.
* Python `re` character classes are modelled over ASCII (`\w` as
  alphanumeric-or-underscore, `\d` as `0`-`9`, `\s` as ASCII whitespace);
  all inputs appearing in the claims are ASCII.
* Wall-clock instants (`datetime.utcnow()`) are integers counting seconds
  and are passed in explicitly; `timedelta(hours=24)` is `86400`, and
  `timedelta(minutes=m)` is `60 * m`.
* Confidence scores and similarity ratios (Python floats) are modelled as
  exact rationals `ℚ`; every score appearing in the sources is a small
  decimal and all comparisons in the claims are far from any rounding
  boundary.
* Exceptions raised by external collaborators (LLM, tools) and the
  `try/except` blocks guarding internal analysis are modelled with explicit
  `Option`/`Except` oracles.
-/

namespace GenaiRag

/-- Apostrophe character, used to build string literals containing `'`. -/
def apoC : Char := Char.ofNat 39

/-- One-character apostrophe string. -/
def apoS : String := String.mk [apoC]

/-- Python `\w` (ASCII): letters, digits, underscore. -/
def isWordChar (c : Char) : Bool := c.isAlphanum || c = '_'

/-- Whether an optional character (position just outside the string) is a
word character; `none` (start/end of text) counts as non-word. -/
def isWordOpt : Option Char → Bool
  | none => false
  | some c => isWordChar c

/-- Python `\s` (ASCII): space, tab, newline, carriage return, vertical
tab, form feed. -/
def isSpaceChar (c : Char) : Bool :=
  c = ' ' || c = '\t' || c = '\n' || c = '\r' || c = Char.ofNat 11 || c = Char.ofNat 12

/-- Python `\d` (ASCII): decimal digits. -/
def isDigitChar (c : Char) : Bool := '0' ≤ c && c ≤ '9'

/-- `[A-Z]`. -/
def isUpperAZ (c : Char) : Bool := 'A' ≤ c && c ≤ 'Z'

/-- `[a-z]`. -/
def isLowerAZ (c : Char) : Bool := 'a' ≤ c && c ≤ 'z'

/-- `[A-Z0-9]`. -/
def isUpperOrDigit (c : Char) : Bool := isUpperAZ c || isDigitChar c

/-- Python `str.lower()` (ASCII). -/
def pyLower (s : String) : String := String.mk (s.data.map Char.toLower)

/-- Python `str.upper()` (ASCII). -/
def pyUpper (s : String) : String := String.mk (s.data.map Char.toUpper)

/-- Python `str.strip()`: drop ASCII whitespace from both ends. -/
def pyStrip (s : String) : String :=
  String.mk (((s.data.dropWhile isSpaceChar).reverse.dropWhile isSpaceChar).reverse)

/-- Python `str.split()` with no argument: split on whitespace runs,
discarding empty pieces. -/
def pySplit (s : String) : List String :=
  (s.split isSpaceChar).filter (fun w => w ≠ "")

/-- Python substring test `needle in haystack`. -/
def pyContains (haystack needle : String) : Bool :=
  decide (needle.data <:+: haystack.data)

/-! ### A small regular-expression engine

Used to embed the `re.search` calls of the sources.  Only the constructs
actually occurring in the repository's patterns are supported: character
classes, concatenation, alternation, bounded/unbounded greedy repetition
and the word-boundary assertion `\b`.  Matching is a fueled backtracking
search; since only the *existence* of a match is ever consumed by the
sources via `re.search`, the engine explores all alternatives. -/

inductive RE where
  | eps : RE
  | cls : (Char → Bool) → RE
  | seq : RE → RE → RE
  | alt : RE → RE → RE
  | rep : RE → Nat → Option Nat → RE
  | wordB : RE

/-- Fueled matcher in continuation style.  `prev` is the character just
before the current position (for `\b`); the continuation receives the new
previous character and the remaining input.  Fuel bounds recursion depth;
`reFuel` below always suffices for the repository's patterns. -/
def reTry (fuel : Nat) (r : RE) (prev : Option Char) (s : List Char)
    (k : Option Char → List Char → Bool) : Bool :=
  match fuel with
  | 0 => false
  | fuel + 1 =>
    match r with
    | .eps => k prev s
    | .wordB => (isWordOpt prev != isWordOpt s.head?) && k prev s
    | .cls p =>
      match s with
      | [] => false
      | c :: t => p c && k (some c) t
    | .seq a b => reTry fuel a prev s (fun p' s' => reTry fuel b p' s' k)
    | .alt a b => reTry fuel a prev s k || reTry fuel b prev s k
    | .rep r lo hi =>
      match lo with
      | lo' + 1 =>
        reTry fuel r prev s (fun p' s' => reTry fuel (.rep r lo' (hi.map (· - 1))) p' s' k)
      | 0 =>
        match hi with
        | some 0 => k prev s
        | _ =>
          k prev s ||
            reTry fuel r prev s (fun p' s' => reTry fuel (.rep r 0 (hi.map (· - 1))) p' s' k)

/-- A crude size bound on a pattern, counting repetitions. -/
def reSize : RE → Nat
  | .eps => 1
  | .wordB => 1
  | .cls _ => 1
  | .seq a b => 1 + reSize a + reSize b
  | .alt a b => 1 + reSize a + reSize b
  | .rep r lo hi => 1 + (max lo (hi.getD lo) + 1) * (reSize r + 1)

/-- Fuel sufficient to explore any match of `r` in `s`. -/
def reFuel (r : RE) (s : List Char) : Nat := 4 * (s.length + reSize r) + 16

/-- Try to match `r` starting at every position of `s` (Python
`re.search`), threading the previous character for `\b`. -/
def searchFrom (r : RE) (prev : Option Char) (s : List Char) : Bool :=
  reTry (reFuel r s) r prev s (fun _ _ => true) ||
    match s with
    | [] => false
    | c :: t => searchFrom r (some c) t

/-- Python `re.search(r, s) is not None`. -/
def reSearch (r : RE) (s : String) : Bool := searchFrom r none s.data

/-- Whether any pattern in the list matches (the sources iterate pattern
lists and act on the first hit). -/
def anySearch (rs : List RE) (s : String) : Bool := rs.any (fun r => reSearch r s)

/-- Literal string pattern. -/
def lit (w : String) : RE :=
  w.data.foldr (fun c r => RE.seq (RE.cls (fun d => d = c)) r) RE.eps

/-- `a|b|...` over a nonempty list (empty list matches nothing). -/
def altOf : List RE → RE
  | [] => RE.cls (fun _ => false)
  | [r] => r
  | r :: rs => RE.alt r (altOf rs)

/-- `\b(?:w1|w2|...)\b` for literal words. -/
def wordAlt (ws : List String) : RE :=
  RE.seq RE.wordB (RE.seq (altOf (ws.map lit)) RE.wordB)

/-- `\s+`. -/
def sp1 : RE := RE.rep (RE.cls isSpaceChar) 1 none

/-- `\s*`. -/
def sp0 : RE := RE.rep (RE.cls isSpaceChar) 0 none

/-- `(?:r)?`. -/
def opt (r : RE) : RE := RE.rep r 0 (some 1)

/-- Concatenation of a pattern list. -/
def seqOf : List RE → RE
  | [] => RE.eps
  | [r] => r
  | r :: rs => RE.seq r (seqOf rs)

/-! ### `findall` for boundary-delimited character-class runs

Every delivery-number pattern in the sources (both in `tool_detector.py`
and `conversation_flow.py`) has the shape
`\b C1{l1,h1} C2{l2,h2} ... \b` where each `Ci` is a character class of
word characters.  `findallRuns` implements Python `re.findall` for exactly
this shape: left-to-right scan, greedy per-run counts with backtracking,
non-overlapping continuation after each match.  For these patterns the
capture group (when present) spans the whole consumed text, so the
returned strings are the consumed slices. -/

structure RunPat where
  cls : Char → Bool
  lo : Nat
  hi : Nat

/-- Backtracking over the count of the current run: try `k`, `k-1`, ...,
`lo`; `restMatch` matches the remaining runs (and the trailing boundary)
against the suffix. -/
def tryCounts (restMatch : List Char → Option Nat) (lo : Nat) (s : List Char) :
    Nat → Option Nat
  | 0 =>
    if lo = 0 then
      match restMatch s with
      | some n => some n
      | none => none
    else none
  | k + 1 =>
    if k + 1 < lo then none
    else
      match restMatch (s.drop (k + 1)) with
      | some n => some (k + 1 + n)
      | none => tryCounts restMatch lo s k

/-- Greedy backtracking match of a run list against a prefix of `s`;
`accept` is the condition on the suffix left over after all runs (the
trailing `\b`).  Returns the number of characters consumed. -/
def matchRuns (accept : List Char → Bool) : List RunPat → List Char → Option Nat
  | [], s => if accept s then some 0 else none
  | r :: rest, s =>
    tryCounts (matchRuns accept rest) r.lo s (min r.hi ((s.takeWhile r.cls).length))

/-- Trailing `\b` after a run match: the last consumed character is a word
character, so the boundary holds iff the next character is absent or
non-word. -/
def tailBoundary (s : List Char) : Bool := !(isWordOpt s.head?)

/-- Scanning loop of `findall` (fuel = remaining length; every successful
match of the repository's patterns consumes at least one character). -/
def scanRuns (fuel : Nat) (runs : List RunPat) (prev : Option Char)
    (s : List Char) : List (List Char) :=
  match fuel with
  | 0 => []
  | fuel + 1 =>
    match s with
    | [] => []
    | c :: t =>
      let attempt : Option Nat :=
        if isWordOpt prev then none else matchRuns tailBoundary runs s
      match attempt with
      | some (n + 1) =>
        (s.take (n + 1)) ::
          scanRuns fuel runs ((s.take (n + 1)).getLast? ) (s.drop (n + 1))
      | _ => scanRuns fuel runs (some c) t

/-- Python `re.findall` for a `\b`-delimited run pattern. -/
def findallRuns (runs : List RunPat) (s : String) : List String :=
  (scanRuns (s.data.length + 1) runs none s.data).map String.mk

/-- Python-style order-preserving de-duplication (`seen`-set loop used by
both `_extract_delivery_numbers` implementations): keeps the first
occurrence of every element. -/
def pyDedupAux : List String → List String → List String
  | [], _ => []
  | x :: xs, seen =>
    if x ∈ seen then pyDedupAux xs seen else x :: pyDedupAux xs (x :: seen)

/-- Entry point of the `seen`-set de-duplication loop. -/
def pyDedup (l : List String) : List String := pyDedupAux l []

/-- Python `l[-n:]`. -/
def listLastN {α : Type} (n : Nat) (l : List α) : List α := l.drop (l.length - n)

/-! ### Data model

`ConversationMessage` lives in `app/database/schemas.py`, which is not part
of the sources provided; the fields used by the core are modelled from the
spec.  Modelled from the spec: "Message: belongs to exactly one session;
role ∈ {user, assistant}; text content; timestamp" (the token-count and
tool-name metadata fields are never read by the orchestration core embedded
here). -/
structure ConversationMessage where
  role : String
  content : String
  timestamp : Int
deriving DecidableEq

/-- `GuardrailsConfig` from `app/config.py`. -/
structure GuardrailsConfig where
  enable_general_chat : Bool
  max_conversation_length : Nat
  session_timeout_minutes : Nat
  content_filter_enabled : Bool
  max_input_length : Nat
deriving DecidableEq

/-- `ToolsConfig` from `app/config.py` (fields not read by the embedded
core elided). -/
structure ToolsConfig where
  enabled : Bool
  delivery_tracker_enabled : Bool
deriving DecidableEq

/-- The slice of `Settings` (`app/config.py`) read by the embedded core. -/
structure Settings where
  guardrails : GuardrailsConfig
  tools : ToolsConfig
deriving DecidableEq

/-! ### Tool Detector (`app/core/tool_detector.py`) -/

/-- `ToolDetectionResult` (the free-text `reasoning` diagnostic field is
elided; no claim concerns it).  `extracted_parameters` is an association
list. -/
structure ToolDetectionResult where
  tool_required : Bool
  tool_name : Option String
  confidence : ℚ
  required_parameters : List String
  extracted_parameters : List (String × String)
deriving DecidableEq

/-- `self.delivery_patterns['intent_keywords']`. -/
def intentKeywords : List RE :=
  [ wordAlt ["track", "tracking", "trace", "status", "check"],
    wordAlt ["delivery", "shipment", "package", "order"],
    RE.seq RE.wordB (RE.seq
      (altOf [seqOf [lit "where", sp1, lit "is"], lit "locate", lit "find"]) RE.wordB),
    wordAlt ["update", "progress", "arrival"] ]

/-- `self.delivery_patterns['delivery_number_patterns']` as
boundary-delimited class runs:
`\b([A-Z]{2}\d{8,15})\b`, `\b(\d{10,20})\b`, `\b([A-Z0-9]{8,25})\b`,
`\b([A-Z]{1,3}\d{6,15}[A-Z]{0,3})\b`. -/
def deliveryNumberPatterns : List (List RunPat) :=
  [ [⟨isUpperAZ, 2, 2⟩, ⟨isDigitChar, 8, 15⟩],
    [⟨isDigitChar, 10, 20⟩],
    [⟨isUpperOrDigit, 8, 25⟩],
    [⟨isUpperAZ, 1, 3⟩, ⟨isDigitChar, 6, 15⟩, ⟨isUpperAZ, 0, 3⟩] ]

/-- `self.delivery_patterns['urgency_indicators']`. -/
def urgencyIndicators : List RE :=
  [ wordAlt ["urgent", "asap", "immediately", "quickly"],
    wordAlt ["late", "delayed", "overdue"],
    wordAlt ["when", "what time", "arrival time"] ]

/-- `self.context_keywords['delivery_tracking']`. -/
def deliveryContextKeywords : List String :=
  [ "shipped", "sent", "dispatched", "courier", "postal",
    "fedex", "ups", "dhl", "usps", "amazon",
    "expected", "estimated", "arrive", "delivery date" ]

/-- The `explicit_requests` patterns of `_analyze_delivery_tracking`. -/
def explicitRequests : List RE :=
  [ seqOf [lit "track", sp1, opt (altOf [lit "my", lit "the"]), sp0,
      altOf [lit "package", lit "delivery", lit "shipment"]],
    seqOf [lit "check", sp1, opt (altOf [lit "my", lit "the"]), sp0,
      altOf [lit "delivery", lit "shipment"], sp0, lit "status"],
    seqOf [lit "where", sp1, lit "is", sp1, lit "my", sp1,
      altOf [lit "package", lit "order", lit "delivery"]],
    seqOf [lit "delivery", sp1, lit "status"] ]

/-- `_validate_delivery_number`. -/
def validateDeliveryNumber (number : String) : Bool :=
  if number = "" then false
  else if number.length < 6 || number.length > 25 then false
  else
    let has_letter := number.data.any isUpperAZ
    let has_number := number.data.any isDigitChar
    if !has_letter && decide (10 ≤ number.length) then true
    else if has_letter && has_number then true
    else false

/-- `re.sub(r'[^\w]', '', match)`. -/
def cleanMatch (s : String) : String := String.mk (s.data.filter isWordChar)

/-- `_extract_delivery_numbers` (tool detector): findall each pattern on
the uppercased text, clean, validate, de-duplicate keeping first
occurrences. -/
def extractDeliveryNumbers (text : String) : List String :=
  let text_upper := pyUpper text
  let collected := deliveryNumberPatterns.foldl
    (fun acc runs =>
      acc ++ ((findallRuns runs text_upper).map cleanMatch).filter validateDeliveryNumber)
    []
  pyDedup collected

/-- Keyword-match count of one history message against the
`delivery_tracking` context keywords (substring containment on the
lowercased content). -/
def contextKeywordMatches (message : ConversationMessage) : Nat :=
  (deliveryContextKeywords.filter (fun k => pyContains (pyLower message.content) k)).length

/-- Per-message contribution inside the `_analyze_conversation_context`
loop.  `recent_messages.index(message)` (Python value equality on the
message records) is the index of the first equal message. -/
def contextContrib (recent_messages : List ConversationMessage)
    (message : ConversationMessage) : ℚ :=
  let keyword_matches := contextKeywordMatches message
  if 0 < keyword_matches then
    let message_age : Nat :=
      recent_messages.length - recent_messages.findIdx (fun x => decide (x = message))
    let weight : ℚ := mkRat message_age recent_messages.length
    min ((keyword_matches : ℚ) * mkRat 5 100 * weight) (mkRat 1 10)
  else 0

/-- `_analyze_conversation_context` for `tool_type = 'delivery_tracking'`
(the only tool type in `self.context_keywords`; for any other type the
source returns `0.0` immediately). -/
def analyzeConversationContext (conversation_history : List ConversationMessage) : ℚ :=
  if conversation_history = [] then 0
  else
    let recent_messages := listLastN 6 conversation_history
    min ((recent_messages.map (contextContrib recent_messages)).sum) (mkRat 3 10)

/-- The `ToolDetectionResult` returned on every "no tool" path of
`analyze_message` / `_analyze_delivery_tracking` (they differ only in the
elided `reasoning` string). -/
def noToolResult : ToolDetectionResult :=
  { tool_required := false, tool_name := none, confidence := 0,
    required_parameters := [], extracted_parameters := [] }

/-- Number of intent-keyword patterns matching the lowercased message
(each contributes `0.15`). -/
def intentMatchCount (message_lower : String) : Nat :=
  (intentKeywords.filter (fun p => reSearch p message_lower)).length

/-- Number of urgency-indicator patterns matching (each contributes
`0.1`). -/
def urgencyMatchCount (message_lower : String) : Nat :=
  (urgencyIndicators.filter (fun p => reSearch p message_lower)).length

/-- Number of explicit-request patterns matching (each contributes
`0.25`). -/
def explicitMatchCount (message_lower : String) : Nat :=
  (explicitRequests.filter (fun p => reSearch p message_lower)).length

/-- The accumulated `confidence_score` of `_analyze_delivery_tracking`. -/
def deliveryConfidenceScore (user_message : String)
    (conversation_history : List ConversationMessage) : ℚ :=
  (intentMatchCount (pyLower user_message) : ℚ) * mkRat 15 100
    + (if extractDeliveryNumbers user_message ≠ [] then mkRat 4 10 else 0)
    + (urgencyMatchCount (pyLower user_message) : ℚ) * mkRat 1 10
    + analyzeConversationContext conversation_history
    + (explicitMatchCount (pyLower user_message) : ℚ) * mkRat 25 100

/-- `_analyze_delivery_tracking`. -/
def analyzeDeliveryTracking (settings : Settings) (user_message : String)
    (conversation_history : List ConversationMessage) : ToolDetectionResult :=
  if !settings.tools.delivery_tracker_enabled then noToolResult
  else
    let confidence_score := deliveryConfidenceScore user_message conversation_history
    let tool_required := decide (mkRat 3 10 ≤ confidence_score)
    let extracted_params : List (String × String) :=
      match extractDeliveryNumbers user_message with
      | [] => []
      | n :: _ => [("delivery_number", n)]
    { tool_required := tool_required,
      tool_name := if tool_required then some "delivery_tracker" else none,
      confidence := min confidence_score 1,
      required_parameters := ["delivery_number"],
      extracted_parameters := extracted_params }

/-- `analyze_message`.  `internalError = some e` models the body of the
`try` block raising an exception `e` (the `except Exception` handler);
`none` is normal execution. -/
def analyzeMessage (settings : Settings) (internalError : Option String)
    (user_message : String) (conversation_history : List ConversationMessage) :
    ToolDetectionResult :=
  match internalError with
  | some _ => noToolResult
  | none =>
    if !settings.tools.enabled then noToolResult
    else
      let delivery_result := analyzeDeliveryTracking settings user_message conversation_history
      if delivery_result.tool_required then delivery_result else noToolResult

/-! ### Conversation Flow Analyzer (`app/core/conversation_flow.py`) -/

/-- `ConversationState`. -/
inductive ConversationState where
  | INITIAL
  | ONGOING
  | WAITING_FOR_INPUT
  | TOOL_EXECUTION
  | COMPLETED
  | ERROR
deriving DecidableEq

/-- `InputType`. -/
inductive InputType where
  | DELIVERY_NUMBER
  | CONFIRMATION
  | CLARIFICATION
  | CHOICE
  | GENERAL
deriving DecidableEq

/-- `self.waiting_patterns` (the `GENERAL` type has no pattern row in the
source dictionary). -/
def waitingPatterns : InputType → List RE
  | .DELIVERY_NUMBER =>
    [ seqOf [lit "delivery", sp0, lit "number"],
      seqOf [lit "tracking", sp0, lit "number"],
      seqOf [lit "package", sp0, lit "id"],
      seqOf [lit "shipment", sp0, lit "id"],
      seqOf [lit "order", sp0, lit "number"] ]
  | .CONFIRMATION =>
    [ lit "confirm",
      seqOf [lit "yes", sp0, lit "or", sp0, lit "no"],
      lit "proceed",
      lit "continue" ]
  | .CLARIFICATION =>
    [ lit "clarify",
      lit "specify",
      seqOf [lit "more", sp0, lit "details"],
      seqOf [lit "which", sp0, lit "one"] ]
  | .CHOICE =>
    [ lit "choose",
      lit "select",
      lit "option",
      lit "preference" ]
  | .GENERAL => []

/-- Dictionary insertion order of `self.waiting_patterns`, as iterated by
`_analyze_ai_request`. -/
def inputTypeOrder : List InputType :=
  [.DELIVERY_NUMBER, .CONFIRMATION, .CLARIFICATION, .CHOICE]

/-- `self.positive_responses`. -/
def positiveResponses : List RE :=
  ["yes", "yep", "yeah", "sure", "ok", "okay", "confirm", "proceed",
   "correct", "right", "agree"].map (fun w => wordAlt [w])

/-- `self.negative_responses`. -/
def negativeResponses : List RE :=
  ["no", "nope", "cancel", "stop", "wrong", "incorrect", "disagree"].map
    (fun w => wordAlt [w])

/-- `self.delivery_number_patterns` of the flow manager:
`\b[A-Z]{2}\d{8,12}\b`, `\b\d{10,15}\b`, `\b[A-Z0-9]{8,20}\b`. -/
def flowDeliveryNumberPatterns : List (List RunPat) :=
  [ [⟨isUpperAZ, 2, 2⟩, ⟨isDigitChar, 8, 12⟩],
    [⟨isDigitChar, 10, 15⟩],
    [⟨isUpperOrDigit, 8, 20⟩] ]

/-- The `urgent_indicators` of `_is_urgent_request`. -/
def urgentIndicators : List RE :=
  [ seqOf [lit "please", sp0, lit "provide"],
    seqOf [lit "need", sp0, lit "to", sp0, lit "know"],
    lit "required",
    seqOf [lit "must", sp0, lit "have"],
    lit "important" ]

/-- `_is_urgent_request` (takes the already-lowercased message). -/
def isUrgentRequest (ai_message : String) : Bool :=
  anySearch urgentIndicators ai_message

/-- The solicitation record produced by `_analyze_ai_request` (its
`description`, `patterns` and `alternatives` entries are recomputable from
the type and are elided). -/
structure WaitingFor where
  type : InputType
  urgent : Bool
deriving DecidableEq

/-- `_analyze_ai_request`: first pattern-group hit in dictionary order,
else the question-mark fallback. -/
def analyzeAiRequest (ai_message : String) : Option WaitingFor :=
  let ai_message_lower := pyLower ai_message
  match inputTypeOrder.find? (fun t => anySearch (waitingPatterns t) ai_message_lower) with
  | some t => some ⟨t, isUrgentRequest ai_message_lower⟩
  | none =>
    if pyContains ai_message "?" then some ⟨.GENERAL, false⟩ else none

/-- The analysis record built by `_analyze_user_response`. -/
structure ResponseAnalysis where
  has_requested_info : Bool
  extracted_info : Option String
  confidence : ℚ
  response_type : Option String
deriving DecidableEq

/-- The all-negative initial `result` of `_analyze_user_response`. -/
def noResponseInfo : ResponseAnalysis :=
  { has_requested_info := false, extracted_info := none, confidence := 0,
    response_type := none }

/-- `_extract_delivery_numbers` (flow manager): findall each pattern on the
uppercased text, then de-duplicate keeping first occurrences (no cleaning
or format validation here, unlike the tool detector). -/
def extractDeliveryNumbersFlow (text : String) : List String :=
  pyDedup (flowDeliveryNumberPatterns.foldl
    (fun acc runs => acc ++ findallRuns runs (pyUpper text)) [])

/-- `_is_positive_response` (on lowercased text). -/
def isPositiveResponse (text : String) : Bool := anySearch positiveResponses text

/-- `_is_negative_response` (on lowercased text). -/
def isNegativeResponse (text : String) : Bool := anySearch negativeResponses text

/-- The `ordinal_patterns` table of `_extract_choice`, in insertion
order. -/
def ordinalPatterns : List (RE × String) :=
  [ (wordAlt ["first"], "option_1"),
    (wordAlt ["second"], "option_2"),
    (wordAlt ["third"], "option_3"),
    (wordAlt ["fourth"], "option_4"),
    (wordAlt ["fifth"], "option_5") ]

/-- `_extract_choice` (on lowercased text): first `\b[1-9]\b` token, else
first `\b[a-e]\b` token, else an ordinal word. -/
def extractChoice (text : String) : Option String :=
  match (findallRuns [⟨fun c => '1' ≤ c && c ≤ '9', 1, 1⟩] text).head? with
  | some d => some ("option_" ++ d)
  | none =>
    match (findallRuns [⟨fun c => 'a' ≤ c && c ≤ 'e', 1, 1⟩] text).head? with
    | some d => some ("option_" ++ d)
    | none =>
      ordinalPatterns.findSome?
        (fun pc => if reSearch pc.1 text then some pc.2 else none)

/-- `_analyze_user_response`. -/
def analyzeUserResponse (user_message : String) (waiting_for : WaitingFor) :
    ResponseAnalysis :=
  match waiting_for.type with
  | .DELIVERY_NUMBER =>
    match extractDeliveryNumbersFlow user_message with
    | [] => noResponseInfo
    | n :: _ =>
      { has_requested_info := true, extracted_info := some n,
        confidence := mkRat 9 10, response_type := some "delivery_number" }
  | .CONFIRMATION =>
    if isPositiveResponse (pyLower user_message) then
      { has_requested_info := true, extracted_info := some "yes",
        confidence := mkRat 8 10, response_type := some "confirmation_positive" }
    else if isNegativeResponse (pyLower user_message) then
      { has_requested_info := true, extracted_info := some "no",
        confidence := mkRat 8 10, response_type := some "confirmation_negative" }
    else noResponseInfo
  | .CLARIFICATION =>
    if 5 < (pyStrip user_message).length then
      { has_requested_info := true, extracted_info := some (pyStrip user_message),
        confidence := mkRat 6 10, response_type := some "clarification" }
    else noResponseInfo
  | .CHOICE =>
    match extractChoice (pyLower user_message) with
    | some choice =>
      { has_requested_info := true, extracted_info := some choice,
        confidence := mkRat 7 10, response_type := some "choice" }
    | none => noResponseInfo
  | .GENERAL =>
    if 0 < (pyStrip user_message).length then
      { has_requested_info := true, extracted_info := some (pyStrip user_message),
        confidence := mkRat 5 10, response_type := some "general" }
    else noResponseInfo

/-- Whether an assistant message matches the same solicitation group as
`waiting_for` — the `patterns` re-check inside `_count_request_attempts`
(for `GENERAL` the stored pattern is `\?`). -/
def matchesWaitingGroup (t : InputType) (content : String) : Bool :=
  match t with
  | .GENERAL => pyContains (pyLower content) "?"
  | t => anySearch (waitingPatterns t) (pyLower content)

/-- `_count_request_attempts`: walk the history backwards, counting
assistant messages that repeat the same solicitation, stopping at the
first assistant message that does not (user messages are skipped). -/
def countRequestAttemptsRev (t : InputType) : List ConversationMessage → Nat
  | [] => 0
  | m :: rest =>
    if m.role = "assistant" then
      if matchesWaitingGroup t m.content then 1 + countRequestAttemptsRev t rest else 0
    else countRequestAttemptsRev t rest

/-- Entry point of `_count_request_attempts`. -/
def countRequestAttempts (conversation_history : List ConversationMessage)
    (t : InputType) : Nat :=
  countRequestAttemptsRev t conversation_history.reverse

/-- The `completion_indicators` of `_should_complete_conversation`. -/
def completionIndicators : List RE :=
  [ RE.seq RE.wordB (RE.seq (seqOf [lit "thank", sp0, lit "you"]) RE.wordB),
    wordAlt ["thanks"],
    wordAlt ["goodbye"],
    wordAlt ["bye"],
    wordAlt ["done"],
    wordAlt ["finished"],
    RE.seq RE.wordB (RE.seq (seqOf [lit "no", sp0, lit "more", sp0, lit "questions"]) RE.wordB),
    RE.seq RE.wordB (RE.seq (seqOf [lit ("that" ++ apoS ++ "s"), sp0, lit "all"]) RE.wordB) ]

/-- `_should_complete_conversation`. -/
def shouldCompleteConversation (settings : Settings)
    (conversation_history : List ConversationMessage) (current_message : String) : Bool :=
  anySearch completionIndicators (pyLower current_message)
    || decide (settings.guardrails.max_conversation_length ≤ conversation_history.length)

/-- The flow-state record of `_create_flow_state` (the wall-clock
`timestamp` diagnostic entry is elided; optional entries default to
absent). -/
structure FlowState where
  state : ConversationState
  awaiting_input : Bool
  provided_info : Option ResponseAnalysis := none
  previous_request : Option WaitingFor := none
  waiting_for : Option WaitingFor := none
  attempts : Option Nat := none
  error : Option String := none
deriving DecidableEq

/-- `_create_flow_state` without extra entries. -/
def createFlowState (state : ConversationState) : FlowState :=
  { state := state, awaiting_input := decide (state = .WAITING_FOR_INPUT) }

/-- `_get_last_ai_message`. -/
def getLastAiMessage (conversation_history : List ConversationMessage) :
    Option ConversationMessage :=
  conversation_history.reverse.find? (fun m => decide (m.role = "assistant"))

/-- The body of `analyze_conversation_state` (the `try` block). -/
def analyzeConversationStateBody (settings : Settings)
    (conversation_history : List ConversationMessage) (current_message : String) :
    FlowState :=
  if conversation_history = [] then createFlowState .INITIAL
  else
    match getLastAiMessage conversation_history with
    | none => createFlowState .INITIAL
    | some last_ai_message =>
      match analyzeAiRequest last_ai_message.content with
      | some waiting_for =>
        let provided_info := analyzeUserResponse current_message waiting_for
        if provided_info.has_requested_info then
          { createFlowState .ONGOING with
              provided_info := some provided_info,
              previous_request := some waiting_for }
        else
          { createFlowState .WAITING_FOR_INPUT with
              waiting_for := some waiting_for,
              attempts := some (countRequestAttempts conversation_history waiting_for.type) }
      | none =>
        if shouldCompleteConversation settings conversation_history current_message then
          createFlowState .COMPLETED
        else createFlowState .ONGOING

/-- `analyze_conversation_state`.  `internalError = some e` models the body
raising an exception `e`, handled by the `except Exception` branch; `none`
is normal execution. -/
def analyzeConversationState (settings : Settings) (internalError : Option String)
    (conversation_history : List ConversationMessage) (current_message : String) :
    FlowState :=
  match internalError with
  | some e => { createFlowState .ERROR with error := some e }
  | none => analyzeConversationStateBody settings conversation_history current_message

/-! ### Guardrails (`app/core/guardrails.py`) -/

/-- A violation-ledger entry: type tag and timestamp.  The extra
diagnostic payload keys (`message_excerpt`, `pattern`, `matches_count`,
`duplicate_count`, `message_length`) are elided; no control flow reads
them. -/
structure Violation where
  vtype : String
  timestamp : Int
deriving DecidableEq

/-- `self.violation_history`: per-session ledger, a total map defaulting to
the empty ledger (the source initialises `[]` on first write). -/
abbrev ViolationHistory := String → List Violation

/-- `_record_violation`: append, then prune entries older than 24 hours
(keep `v['timestamp'] > utcnow - 24h`). -/
def recordViolation (now : Int) (h : ViolationHistory) (session_id : String)
    (violation : Violation) : ViolationHistory :=
  fun s =>
    if s = session_id then
      ((h session_id) ++ [violation]).filter
        (fun v => decide (now - 86400 < v.timestamp))
    else h s

/-- `_get_recent_violations`. -/
def getRecentViolations (h : ViolationHistory) (session_id violation_type : String)
    (minutes : Nat) (now : Int) : List Violation :=
  (h session_id).filter
    (fun v => v.vtype = violation_type && decide (now - 60 * (minutes : Int) < v.timestamp))

/-- `self.inappropriate_patterns`. -/
def inappropriatePatterns : List RE :=
  [ wordAlt ["spam", "test", "abuse", "harmful"],
    wordAlt ["hack", "exploit", "bypass"],
    wordAlt ["illegal", "fraud", "scam"] ]

/-- `self.off_topic_patterns`. -/
def offTopicPatterns : List RE :=
  [ wordAlt ["weather", "sports", "politics", "entertainment"],
    wordAlt ["recipe", "cooking", "travel", "music"],
    wordAlt ["joke", "story", "poem", "creative"],
    wordAlt ["personal", "relationship", "advice"] ]

/-- `self.tool_keywords`. -/
def toolKeywords : List RE :=
  [ wordAlt ["delivery", "tracking", "shipment", "package"],
    wordAlt ["order", "track", "status", "update"],
    wordAlt ["help", "assist", "support", "service"] ]

/-- `[a-zA-Z]`. -/
def isAsciiLetter (c : Char) : Bool := isUpperAZ c || isLowerAZ c

/-- `self.sensitive_patterns`: credit-card-like, SSN-like, and email
shapes. -/
def sensitivePatterns : List RE :=
  let d : Nat → RE := fun n => RE.rep (RE.cls isDigitChar) n (some n)
  let sep : RE := opt (RE.cls (fun c => c = '-' || isSpaceChar c))
  let localCls : Char → Bool := fun c =>
    isAsciiLetter c || isDigitChar c || c = '.' || c = '_' || c = '%' || c = '+' || c = '-'
  let domainCls : Char → Bool := fun c => isAsciiLetter c || isDigitChar c || c = '.' || c = '-'
  [ RE.seq RE.wordB (RE.seq (seqOf [d 4, sep, d 4, sep, d 4, sep, d 4]) RE.wordB),
    RE.seq RE.wordB (RE.seq (seqOf [d 3, sep, d 2, sep, d 4]) RE.wordB),
    RE.seq RE.wordB (RE.seq
      (seqOf [RE.rep (RE.cls localCls) 1 none, lit "@", RE.rep (RE.cls domainCls) 1 none,
        lit ".", RE.rep (RE.cls isAsciiLetter) 2 none]) RE.wordB) ]

/-- The `courtesy_patterns` of `_check_tool_relevance`. -/
def courtesyPatterns : List RE :=
  [ wordAlt ["hello", "hi", "hey", "thanks", "thank you", "please", "help"],
    wordAlt ["good morning", "good afternoon", "good evening"] ]

/-- The `tool_indicators` of `_has_recent_tool_context`. -/
def toolIndicators : List String :=
  ["delivery", "tracking", "shipment", "package", "status", "update", "track", "order"]

/-- `_has_recent_tool_context`: any of the last 6 messages is an assistant
message containing a tool indicator. -/
def hasRecentToolContext (conversation_history : List ConversationMessage) : Bool :=
  (listLastN 6 conversation_history).any
    (fun m =>
      m.role = "assistant" &&
        toolIndicators.any (fun k => pyContains (pyLower m.content) k))

/-- `_calculate_similarity`: exact equality short-circuit, then word-set
Jaccard ratio. -/
def calculateSimilarity (msg1 msg2 : String) : ℚ :=
  if msg1 = msg2 then 1
  else
    let words1 := pyDedup (pySplit (pyLower msg1))
    let words2 := pyDedup (pySplit (pyLower msg2))
    if words1 = [] || words2 = [] then 0
    else
      let inter := (words1.filter (fun w => words2.contains w)).length
      let uni := (pyDedup (words1 ++ words2)).length
      if uni = 0 then 0 else mkRat inter uni

/-- Rejection messages of the guardrail checks (string texts from the
source; `'` is spelled via `apoS`). -/
def msgTooLong (max_length : Nat) : String :=
  "Message too long. Maximum " ++ toString max_length ++ " characters allowed."

/-- Empty-message rejection text. -/
def msgEmpty : String := "Message cannot be empty."

/-- Inappropriate-content rejection text. -/
def msgInappropriate : String :=
  "Your message contains inappropriate content. Please rephrase your request."

/-- Sensitive-information rejection text. -/
def msgSensitive : String :=
  "Please don" ++ apoS ++ "t share sensitive information like credit card numbers, " ++
    "social security numbers, or email addresses. I can help you without this information."

/-- Off-topic rejection text. -/
def msgOffTopic : String :=
  "I can only help with delivery tracking and related services. " ++
    "Please ask about tracking a delivery or shipment status."

/-- Conversation-limit rejection text. -/
def msgConvLimit (max_messages : Nat) : String :=
  "Conversation limit of " ++ toString max_messages ++ " messages reached. " ++
    "Please start a new conversation to continue."

/-- Session-timeout rejection text. -/
def msgSessionExpired : String :=
  "Your session has expired due to inactivity. Please start a new conversation."

/-- Repeated-message rejection text. -/
def msgRepetitive : String :=
  "Please don" ++ apoS ++ "t repeat the same message. If you need help, " ++
    "try rephrasing your request or ask a different question."

/-- Similar-messages rejection text. -/
def msgSimilar : String :=
  "Your recent messages are very similar. Please try a different approach " ++
    "or ask a new question if you need additional help."

/-- Short-message-pattern rejection text. -/
def msgShort : String :=
  "Please provide more detailed messages to help me assist you better."

/-- `_check_message_length` (pure: no violation is recorded here). -/
def checkMessageLength (settings : Settings) (message : String) : Option String :=
  if settings.guardrails.max_input_length < message.length then
    some (msgTooLong settings.guardrails.max_input_length)
  else if (pyStrip message).length = 0 then some msgEmpty
  else none

/-- `_check_inappropriate_content`; returns the updated ledger and the
raised `ValidationError` message, if any. -/
def checkInappropriateContent (settings : Settings) (now : Int) (h : ViolationHistory)
    (message session_id : String) : ViolationHistory × Option String :=
  if !settings.guardrails.content_filter_enabled then (h, none)
  else if anySearch inappropriatePatterns (pyLower message) then
    (recordViolation now h session_id ⟨"inappropriate_content", now⟩, some msgInappropriate)
  else (h, none)

/-- `_check_sensitive_information` (patterns run on the raw message). -/
def checkSensitiveInformation (now : Int) (h : ViolationHistory)
    (message session_id : String) : ViolationHistory × Option String :=
  if anySearch sensitivePatterns message then
    (recordViolation now h session_id ⟨"sensitive_information", now⟩, some msgSensitive)
  else (h, none)

/-- `_check_tool_relevance` (only invoked when general chat is
disabled). -/
def checkToolRelevance (now : Int) (h : ViolationHistory) (message : String)
    (conversation_history : List ConversationMessage) (session_id : String) :
    ViolationHistory × Option String :=
  let message_lower := pyLower message
  let tool_relevant := anySearch toolKeywords message_lower
  let is_courtesy := anySearch courtesyPatterns message_lower
  let recent_tool_context := hasRecentToolContext conversation_history
  if !(tool_relevant || is_courtesy || recent_tool_context) then
    let off_topic := anySearch offTopicPatterns message_lower
    if off_topic || decide (3 < (pySplit message).length) then
      (recordViolation now h session_id ⟨"off_topic", now⟩, some msgOffTopic)
    else (h, none)
  else (h, none)

/-- `_check_conversation_limits` (pure: records nothing). -/
def checkConversationLimits (settings : Settings) (now : Int)
    (conversation_history : List ConversationMessage) : Option String :=
  if settings.guardrails.max_conversation_length ≤ conversation_history.length then
    some (msgConvLimit settings.guardrails.max_conversation_length)
  else
    match conversation_history with
    | [] => none
    | first :: _ =>
      if 60 * (settings.guardrails.session_timeout_minutes : Int) < now - first.timestamp then
        some msgSessionExpired
      else none

/-- `_check_repetitive_patterns`. -/
def checkRepetitivePatterns (now : Int) (h : ViolationHistory) (message : String)
    (conversation_history : List ConversationMessage) (session_id : String) :
    ViolationHistory × Option String :=
  if conversation_history.length < 2 then (h, none)
  else
    let recent_user_messages :=
      ((listLastN 5 conversation_history).filter (fun m => m.role = "user")).map
        (fun m => m.content)
    if 2 ≤ recent_user_messages.count message then
      (recordViolation now h session_id ⟨"repetitive_message", now⟩, some msgRepetitive)
    else if 3 ≤ (recent_user_messages.filter
        (fun r => decide (mkRat 8 10 < calculateSimilarity message r))).length then
      (h, some msgSimilar)
    else (h, none)

/-- `_check_rate_limiting_patterns`. -/
def checkRateLimitingPatterns (now : Int) (h : ViolationHistory)
    (message session_id : String) : ViolationHistory × Option String :=
  if (pyStrip message).length ≤ 2 then
    if 3 ≤ (getRecentViolations h session_id "short_message" 5 now).length then
      (h, some msgShort)
    else (recordViolation now h session_id ⟨"short_message", now⟩, none)
  else (h, none)

/-- `validate_user_message`: the checks in source order, short-circuiting
on the first raised `ValidationError`; the ledger updates made before a
raise persist (they live on `self`).  Returns the (possibly updated)
ledger and the error, `none` meaning the message is accepted unchanged. -/
def validateUserMessage (settings : Settings) (now : Int) (h : ViolationHistory)
    (message session_id : String) (conversation_history : List ConversationMessage) :
    ViolationHistory × Option String :=
  match checkMessageLength settings message with
  | some e => (h, some e)
  | none =>
    match checkInappropriateContent settings now h message session_id with
    | (h1, some e) => (h1, some e)
    | (h1, none) =>
      match checkSensitiveInformation now h1 message session_id with
      | (h2, some e) => (h2, some e)
      | (h2, none) =>
        match (if !settings.guardrails.enable_general_chat then
            checkToolRelevance now h2 message conversation_history session_id
          else (h2, none)) with
        | (h3, some e) => (h3, some e)
        | (h3, none) =>
          match checkConversationLimits settings now conversation_history with
          | some e => (h3, some e)
          | none =>
            match checkRepetitivePatterns now h3 message conversation_history session_id with
            | (h4, some e) => (h4, some e)
            | (h4, none) => checkRateLimitingPatterns now h4 message session_id

/-- The patterns of `_check_ai_inappropriate_content` (searched on the
lowercased response; logged only, never blocking). -/
def aiInappropriatePatterns : List RE :=
  [ altOf [lit "I cannot", lit ("I can" ++ apoS ++ "t"), lit ("I don" ++ apoS ++ "t know")],
    altOf [lit "error", lit "failed", lit "broken"],
    altOf [lit "admin", lit "system", lit "debug", lit "internal"] ]

/-- The `negative_pattern_count` of `_check_ai_inappropriate_content`. -/
def aiNegativePatternCount (response : String) : Nat :=
  (aiInappropriatePatterns.filter (fun p => reSearch p (pyLower response))).length

/-- The `system_info_patterns` of `_check_system_information_leakage`. -/
def systemInfoPatterns : List RE :=
  [ altOf [lit "database", lit "sql", lit "query"],
    altOf [lit "server", lit "host", lit "port", lit "endpoint"],
    altOf [lit "api key", lit "token", lit "secret", lit "password"],
    altOf [lit "config", lit "configuration", lit "settings"],
    altOf [lit "internal", lit "backend", lit "infrastructure"] ]

/-- `_check_system_information_leakage` detection flag (logged only). -/
def systemLeakDetected (response : String) : Bool :=
  anySearch systemInfoPatterns (pyLower response)

/-- The `generic_responses` of `_check_response_relevance`. -/
def genericResponses : List String :=
  ["I understand", "That" ++ apoS ++ "s interesting", "I see", "Okay", "Alright"]

/-- `_check_response_relevance` detection flag (logged only). -/
def isGenericResponse (response : String) : Bool :=
  genericResponses.contains (pyStrip response)

/-- The truncation notice appended by `validate_ai_response`. -/
def truncationNotice : String := "... [Response truncated for length]"

/-- `validate_ai_response`: truncate responses over 5000 characters to the
first 4800 plus the notice; the three content checks only log (and the
`except` handler returns the current `response` on any internal error), so
the returned text is the (possibly truncated) response in every case. -/
def validateAiResponse (response _user_message _session_id : String) : String :=
  let response1 :=
    if 5000 < response.length then response.take 4800 ++ truncationNotice
    else response
  let _ := aiNegativePatternCount response1
  let _ := systemLeakDetected response1
  let _ := isGenericResponse response1
  response1

/-! ### Chat Orchestrator (`app/core/chat_manager.py`)

External collaborators (session store timestamps, tool registry lookup,
tool execution, LLM generation with its tiktoken token counting) are
abstracted as an environment of oracles, exactly the boundary drawn by the
spec's "external collaborators". -/

/-- The `ChatResponse` fields produced by `process_message`
(`processing_time`, a wall-clock measurement, is elided). -/
structure ChatResponse where
  response : String
  input_tokens : Nat
  output_tokens : Nat
  tool_called : Bool
  tool_name : Option String
  session_id : String
deriving DecidableEq

/-- The dictionary returned by `_handle_tool_execution`. -/
structure ToolResponse where
  tool_name : Option String
  parameters : List (String × String)
  result : Option String
  success : Bool
  error : Option String := none
deriving DecidableEq

/-- Oracles for the collaborators and for the modelled exception points of
one `process_message` turn.
* `flowInternalError` / `detectorInternalError`: the `try` bodies of the
  flow analyzer / tool detector raising.
* `toolFound`: `tool_registry.get_tool` returning a tool.
* `toolOutcome`: the external `tool.execute` result or exception text.
* `llmOutcome`: `_generate_llm_response` — context assembly, tiktoken
  counting and the provider call — returning the generated text plus
  input/output token counts, or an exception text; it is a function of the
  tool outcome and flow state because both feed the assembled prompt. -/
structure ChatEnv where
  now : Int
  flowInternalError : Option String
  detectorInternalError : Option String
  toolFound : Bool
  toolOutcome : Except String String
  llmOutcome : Option ToolResponse → FlowState → Except String (String × Nat × Nat)

/-- `_handle_tool_execution`: never raises — the registry miss and any
execution failure are caught and turned into a failure record that is
passed to the LLM as context. -/
def handleToolExecution (env : ChatEnv) (detection_result : ToolDetectionResult) :
    ToolResponse :=
  if !env.toolFound then
    { tool_name := detection_result.tool_name,
      parameters := detection_result.extracted_parameters,
      result := none, success := false,
      error := some ("Tool " ++ (detection_result.tool_name.getD "None") ++ " not found") }
  else
    match env.toolOutcome with
    | .ok r =>
      { tool_name := detection_result.tool_name,
        parameters := detection_result.extracted_parameters,
        result := some r, success := true }
    | .error e =>
      { tool_name := detection_result.tool_name,
        parameters := detection_result.extracted_parameters,
        result := none, success := false, error := some e }

/-- The history store: an append-only log of (session, message) pairs. -/
abbrev Db := List (String × ConversationMessage)

/-- `get_conversation_history`. -/
def getConversationHistory (db : Db) (session_id : String) : List ConversationMessage :=
  (db.filter (fun p => p.1 = session_id)).map (fun p => p.2)

/-- `save_user_message`. -/
def saveUserMessage (db : Db) (session_id content : String) (now : Int) : Db :=
  db ++ [(session_id, ⟨"user", content, now⟩)]

/-- `save_ai_message` (token counts and tool name are message metadata not
read back by the embedded core). -/
def saveAiMessage (db : Db) (session_id content : String) (now : Int) : Db :=
  db ++ [(session_id, ⟨"assistant", content, now⟩)]

/-- `process_message`: steps 1-10 of the orchestration pipeline.  Returns
the new history store, the new violation ledger, and either the
`ChatResponse` or the raised error's text (`ValidationError` from step 2,
or `LLMError` from step 7; both escape `process_message` as
`ChatBotException`s in the source). -/
def processMessage (settings : Settings) (env : ChatEnv) (db : Db)
    (h : ViolationHistory) (session_id message : String) :
    Db × ViolationHistory × Except String ChatResponse :=
  let conversation_history := getConversationHistory db session_id
  match validateUserMessage settings env.now h message session_id conversation_history with
  | (h1, some e) => (db, h1, .error e)
  | (h1, none) =>
    let db1 := saveUserMessage db session_id message env.now
    let flow_state :=
      analyzeConversationState settings env.flowInternalError conversation_history message
    let detection :=
      analyzeMessage settings env.detectorInternalError message conversation_history
    let tool_response :=
      if detection.tool_required then some (handleToolExecution env detection) else none
    match env.llmOutcome tool_response flow_state with
    | .error e => (db1, h1, .error ("Failed to generate response: " ++ e))
    | .ok (ai_response, input_tokens, output_tokens) =>
      let validated := validateAiResponse ai_response message session_id
      let db2 := saveAiMessage db1 session_id validated env.now
      (db2, h1,
        .ok { response := validated, input_tokens := input_tokens,
              output_tokens := output_tokens,
              tool_called := detection.tool_required,
              tool_name := if detection.tool_required then detection.tool_name else none,
              session_id := session_id })

/-! ### The claim-side characterization for C5

The claim describes `_validate_delivery_number` in terms of "letters"
without qualification; this definition follows the claim's words (with
letter = any ASCII letter), to be compared against the source-derived
`validateDeliveryNumber`. -/

/-- The validity predicate exactly as the claim states it: length within
`[6,25]`, and either pure-numeric with length `≥ 10`, or containing at
least one letter and at least one digit. -/
def claimValidDeliveryNumber (s : String) : Bool :=
  decide (6 ≤ s.length) && decide (s.length ≤ 25) &&
    ((s.data.all isDigitChar && decide (10 ≤ s.length)) ||
      (s.data.any isAsciiLetter && s.data.any isDigitChar))

end GenaiRag

namespace GenaiRag

/-- Development sanity check: findall on the standard tracking format. -/
example :
    findallRuns [⟨isUpperAZ, 2, 2⟩, ⟨isDigitChar, 8, 15⟩]
      (pyUpper "Track my package AB1234567890") = ["AB1234567890"] := by
  decide

example : extractDeliveryNumbers "Track my package AB1234567890" = ["AB1234567890"] := by
  decide

example : intentMatchCount (pyLower "Track my package AB1234567890") = 2 := by decide

example : urgencyMatchCount (pyLower "Track my package AB1234567890") = 0 := by decide

example : explicitMatchCount (pyLower "Track my package AB1234567890") = 1 := by decide

example :
    deliveryConfidenceScore "Track my package AB1234567890" []
      = mkRat 19 20 := by
  have h1 : intentMatchCount (pyLower "Track my package AB1234567890") = 2 := by decide
  have h2 : urgencyMatchCount (pyLower "Track my package AB1234567890") = 0 := by decide
  have h3 : explicitMatchCount (pyLower "Track my package AB1234567890") = 1 := by decide
  have h4 : extractDeliveryNumbers "Track my package AB1234567890" = ["AB1234567890"] := by
    decide
  rw [deliveryConfidenceScore, h1, h2, h3, h4]
  norm_num [analyzeConversationContext, Rat.mkRat_eq_div]

example :
    (validateUserMessage ⟨⟨true, 50, 30, true, 2000⟩, ⟨true, true⟩⟩ 0 (fun _ => [])
      "help" "s1"
      [⟨"user", "help", 0⟩, ⟨"assistant", "How can I assist you today?", 0⟩]).2
      = none := by
  decide

example :
    (validateUserMessage ⟨⟨true, 50, 30, true, 2000⟩, ⟨true, true⟩⟩ 0 (fun _ => [])
      "help" "s1"
      [⟨"user", "help", 0⟩, ⟨"assistant", "Hello!", 0⟩,
       ⟨"user", "help", 0⟩, ⟨"assistant", "Hello again!", 0⟩]).2
      = some msgRepetitive := by
  decide

example :
    analyzeConversationStateBody ⟨⟨true, 50, 30, true, 2000⟩, ⟨true, true⟩⟩
      [⟨"assistant", "What is your delivery number?", 0⟩] "AB1234567890"
      = { createFlowState .ONGOING with
            provided_info := some
              { has_requested_info := true, extracted_info := some "AB1234567890",
                confidence := mkRat 9 10, response_type := some "delivery_number" },
            previous_request := some ⟨.DELIVERY_NUMBER, false⟩ } := by
  decide

end GenaiRag

namespace GenaiRag

/-! ## Claim theorems -/

/-- C5 counterexample: the claim's characterization calls `"abcdefghij"`
(ten lowercase letters, hence not pure-numeric and without any digit)
invalid, but the source accepts it: the "pure numeric" branch of
`_validate_delivery_number` only tests for the *absence of uppercase
letters* (`re.search(r'[A-Z]', ...)`) plus length ≥ 10. -/
theorem c5_lowercase_letters_counterexample :
    validateDeliveryNumber "abcdefghij" = true ∧
      claimValidDeliveryNumber "abcdefghij" = false := by
  decide

/-- C5 (amended): `_validate_delivery_number(s)` returns True iff
`6 ≤ |s| ≤ 25` and either `s` contains no uppercase letter and `|s| ≥ 10`,
or `s` contains at least one uppercase letter and at least one digit; the
letter tests are uppercase-only (candidates produced by the detector are
uppercased, but the function itself treats lowercase letters as
non-letters). -/
theorem c5_validateDeliveryNumber_characterization (s : String) :
    validateDeliveryNumber s = true ↔
      6 ≤ s.length ∧ s.length ≤ 25 ∧
        ((¬ s.data.any isUpperAZ = true ∧ 10 ≤ s.length) ∨
          (s.data.any isUpperAZ = true ∧ s.data.any isDigitChar = true)) := by
  simp only [validateDeliveryNumber]
  split_ifs with h0 h1 h2 h3
  · subst h0; decide
  · simp only [decide_eq_true_eq, Bool.or_eq_true] at h1
    simp only [Bool.false_eq_true, false_iff]
    rintro ⟨ha, hb, -⟩
    omega
  · simp only [Bool.and_eq_true, Bool.not_eq_true', decide_eq_true_eq] at h2
    simp only [Bool.or_eq_true, decide_eq_true_eq, not_or] at h1
    obtain ⟨h1a, h1b⟩ := h1
    simp only [true_iff]
    refine ⟨by omega, by omega, Or.inl ⟨?_, h2.2⟩⟩
    rw [h2.1]
    simp
  · simp only [Bool.and_eq_true] at h3
    simp only [Bool.or_eq_true, decide_eq_true_eq, not_or] at h1
    obtain ⟨h1a, h1b⟩ := h1
    simp only [true_iff]
    exact ⟨by omega, by omega, Or.inr h3⟩
  · simp only [Bool.false_eq_true, false_iff]
    rintro ⟨hlen6, hlen25, hcase⟩
    rcases hcase with ⟨ha, hl10⟩ | ⟨ha, hd⟩
    · apply h2
      have hup : s.data.any isUpperAZ = false := by
        cases hx : s.data.any isUpperAZ
        · rfl
        · exact absurd hx ha
      simp [hup, hl10]
    · apply h3
      simp [ha, hd]

/-- C7: `validate_ai_response` always returns a text (it never fails the
turn): responses longer than 5000 characters are replaced by their first
4800 characters plus the truncation notice, and all others are returned
unchanged — the content checks after truncation only log. -/
theorem c7_validateAiResponse_truncation (response user_message session_id : String) :
    validateAiResponse response user_message session_id =
      if 5000 < response.length then response.take 4800 ++ truncationNotice
      else response := rfl

/-- C8: after `_record_violation`, every entry remaining in that session's
ledger has a timestamp strictly inside the trailing 24-hour window (the
write appends and then prunes everything at or beyond 24 hours of age). -/
theorem c8_recordViolation_prunes (now : Int) (h : ViolationHistory)
    (session_id : String) (violation : Violation) :
    ∀ v ∈ recordViolation now h session_id violation session_id,
      now - 86400 < v.timestamp := by
  intro v hv
  simp only [recordViolation, eq_self_iff_true, if_true, List.mem_filter,
    decide_eq_true_eq] at hv
  exact hv.2

/-- C8 witness: a concrete write into an empty ledger. -/
theorem c8_recordViolation_prunes_witness :
    (⟨"inappropriate_content", (0 : Int)⟩ : Violation) ∈
        recordViolation 0 (fun _ => []) "s1" ⟨"inappropriate_content", 0⟩ "s1" ∧
      (0 : Int) - 86400 < (⟨"inappropriate_content", (0 : Int)⟩ : Violation).timestamp :=
  ⟨by decide,
    c8_recordViolation_prunes 0 (fun _ => []) "s1" ⟨"inappropriate_content", 0⟩ _ (by decide)⟩

/-- C9: `analyze_message` is total and returns the all-empty result
(`tool_required = False`, `tool_name = None`, `confidence = 0.0`, no
extracted parameters) whenever tools are disabled, whenever the delivery
analysis does not require the tool, or whenever the analysis body raises
internally. -/
theorem c9_analyzeMessage_default (settings : Settings) (internalError : Option String)
    (user_message : String) (conversation_history : List ConversationMessage)
    (hcase : internalError ≠ none ∨ settings.tools.enabled = false ∨
      (analyzeDeliveryTracking settings user_message conversation_history).tool_required
        = false) :
    (analyzeMessage settings internalError user_message conversation_history).tool_required
        = false ∧
      (analyzeMessage settings internalError user_message conversation_history).tool_name
        = none ∧
      (analyzeMessage settings internalError user_message conversation_history).confidence
        = 0 ∧
      (analyzeMessage settings internalError user_message
        conversation_history).extracted_parameters = [] := by
  have hmain : analyzeMessage settings internalError user_message conversation_history
      = noToolResult := by
    cases internalError with
    | some e => rfl
    | none =>
      rcases hcase with hc | hc | hc
      · exact absurd rfl hc
      · simp [analyzeMessage, hc]
      · by_cases he : settings.tools.enabled <;> simp [analyzeMessage, he, hc]
  rw [hmain]
  exact ⟨rfl, rfl, rfl, rfl⟩

/-- C9 witness: tools disabled in configuration. -/
theorem c9_analyzeMessage_default_witness :
    ((none : Option String) ≠ none ∨
        (⟨⟨true, 50, 30, true, 2000⟩, ⟨false, true⟩⟩ : Settings).tools.enabled = false ∨
        (analyzeDeliveryTracking ⟨⟨true, 50, 30, true, 2000⟩, ⟨false, true⟩⟩ "hi" []).tool_required
          = false) ∧
      ((analyzeMessage ⟨⟨true, 50, 30, true, 2000⟩, ⟨false, true⟩⟩ none "hi" []).tool_required
          = false ∧
        (analyzeMessage ⟨⟨true, 50, 30, true, 2000⟩, ⟨false, true⟩⟩ none "hi" []).tool_name
          = none ∧
        (analyzeMessage ⟨⟨true, 50, 30, true, 2000⟩, ⟨false, true⟩⟩ none "hi" []).confidence
          = 0 ∧
        (analyzeMessage ⟨⟨true, 50, 30, true, 2000⟩,
          ⟨false, true⟩⟩ none "hi" []).extracted_parameters = []) :=
  ⟨Or.inr (Or.inl (by decide)),
    c9_analyzeMessage_default _ _ _ _ (Or.inr (Or.inl (by decide)))⟩

end GenaiRag

namespace GenaiRag

/-- Each per-message context contribution is nonnegative. -/
lemma contextContrib_nonneg (recent : List ConversationMessage)
    (m : ConversationMessage) : 0 ≤ contextContrib recent m := by
  simp only [contextContrib]
  split_ifs with h
  · apply le_min
    · rw [Rat.mkRat_eq_div, Rat.mkRat_eq_div]
      positivity
    · rw [Rat.mkRat_eq_div]
      norm_num
  · exact le_refl 0

/-- The conversation-context boost is nonnegative (it is a capped sum of
nonnegative per-message contributions). -/
lemma analyzeConversationContext_nonneg (conversation_history : List ConversationMessage) :
    0 ≤ analyzeConversationContext conversation_history := by
  simp only [analyzeConversationContext]
  split_ifs with h
  · exact le_refl 0
  · apply le_min
    · apply List.sum_nonneg
      intro x hx
      simp only [List.mem_map] at hx
      obtain ⟨m, -, rfl⟩ := hx
      exact contextContrib_nonneg _ _
    · rw [Rat.mkRat_eq_div]
      norm_num

/-- C1: with tools and the delivery tracker enabled, analyzing
`"Track my package AB1234567890"` — whatever the conversation history —
requires the `delivery_tracker` tool with extracted parameter
`delivery_number = "AB1234567890"` (two intent keywords, one explicit
request template and the extracted identifier already total `0.95`, and
the history-dependent context boost is nonnegative, so the `0.3`
activation threshold is always crossed). -/
theorem c1_trackPackage_detection (settings : Settings)
    (conversation_history : List ConversationMessage)
    (hen : settings.tools.enabled = true)
    (hdel : settings.tools.delivery_tracker_enabled = true) :
    (analyzeMessage settings none "Track my package AB1234567890"
        conversation_history).tool_required = true ∧
      (analyzeMessage settings none "Track my package AB1234567890"
        conversation_history).tool_name = some "delivery_tracker" ∧
      (analyzeMessage settings none "Track my package AB1234567890"
        conversation_history).extracted_parameters
        = [("delivery_number", "AB1234567890")] := by
  have hcb := analyzeConversationContext_nonneg conversation_history
  have h1 : intentMatchCount (pyLower "Track my package AB1234567890") = 2 := by decide
  have h2 : urgencyMatchCount (pyLower "Track my package AB1234567890") = 0 := by decide
  have h3 : explicitMatchCount (pyLower "Track my package AB1234567890") = 1 := by decide
  have h4 : extractDeliveryNumbers "Track my package AB1234567890" = ["AB1234567890"] := by
    decide
  have hscore : mkRat 3 10 ≤
      deliveryConfidenceScore "Track my package AB1234567890" conversation_history := by
    rw [deliveryConfidenceScore, h1, h2, h3, h4]
    rw [if_pos (by decide : (["AB1234567890"] : List String) ≠ [])]
    simp only [Rat.mkRat_eq_div]
    push_cast
    linarith
  have hdec : decide (mkRat 3 10 ≤
      deliveryConfidenceScore "Track my package AB1234567890" conversation_history)
      = true := decide_eq_true hscore
  have hAD : analyzeDeliveryTracking settings "Track my package AB1234567890"
      conversation_history
      = { tool_required := true, tool_name := some "delivery_tracker",
          confidence := min (deliveryConfidenceScore "Track my package AB1234567890"
            conversation_history) 1,
          required_parameters := ["delivery_number"],
          extracted_parameters := [("delivery_number", "AB1234567890")] } := by
    simp [analyzeDeliveryTracking, hdel, hdec, h4]
  have hm : analyzeMessage settings none "Track my package AB1234567890"
      conversation_history
      = { tool_required := true, tool_name := some "delivery_tracker",
          confidence := min (deliveryConfidenceScore "Track my package AB1234567890"
            conversation_history) 1,
          required_parameters := ["delivery_number"],
          extracted_parameters := [("delivery_number", "AB1234567890")] } := by
    simp [analyzeMessage, hen, hAD]
  rw [hm]
  exact ⟨rfl, rfl, rfl⟩

/-- C1 witness: default-style configuration, empty history. -/
theorem c1_trackPackage_detection_witness :
    ((⟨⟨true, 50, 30, true, 2000⟩, ⟨true, true⟩⟩ : Settings).tools.enabled = true ∧
        (⟨⟨true, 50, 30, true, 2000⟩, ⟨true, true⟩⟩ : Settings).tools.delivery_tracker_enabled
          = true) ∧
      ((analyzeMessage ⟨⟨true, 50, 30, true, 2000⟩, ⟨true, true⟩⟩ none
          "Track my package AB1234567890" []).tool_required = true ∧
        (analyzeMessage ⟨⟨true, 50, 30, true, 2000⟩, ⟨true, true⟩⟩ none
          "Track my package AB1234567890" []).tool_name = some "delivery_tracker" ∧
        (analyzeMessage ⟨⟨true, 50, 30, true, 2000⟩, ⟨true, true⟩⟩ none
          "Track my package AB1234567890" []).extracted_parameters
          = [("delivery_number", "AB1234567890")]) :=
  ⟨⟨rfl, rfl⟩, c1_trackPackage_detection _ [] rfl rfl⟩

/-- C10: a non-empty history containing no assistant message yields the
INITIAL flow state, exactly as the empty history does
(`_get_last_ai_message` finds nothing and the analyzer returns INITIAL). -/
theorem c10_noAssistant_initial (settings : Settings)
    (conversation_history : List ConversationMessage) (current_message : String)
    (hne : conversation_history ≠ [])
    (hnoa : ∀ m ∈ conversation_history, m.role ≠ "assistant") :
    analyzeConversationState settings none conversation_history current_message
        = createFlowState .INITIAL ∧
      analyzeConversationState settings none [] current_message
        = createFlowState .INITIAL := by
  constructor
  · have hlast : getLastAiMessage conversation_history = none := by
      simp only [getLastAiMessage]
      rw [List.find?_eq_none]
      intro m hm
      simpa using hnoa m (List.mem_reverse.mp hm)
    simp only [analyzeConversationState, analyzeConversationStateBody, hlast]
    rw [if_neg hne]
  · rfl

/-- C10 witness: a single user message. -/
theorem c10_noAssistant_initial_witness :
    (([⟨"user", "hi", 0⟩] : List ConversationMessage) ≠ [] ∧
        ∀ m ∈ ([⟨"user", "hi", 0⟩] : List ConversationMessage), m.role ≠ "assistant") ∧
      (analyzeConversationState ⟨⟨true, 50, 30, true, 2000⟩, ⟨true, true⟩⟩ none
          [⟨"user", "hi", 0⟩] "hello" = createFlowState .INITIAL ∧
        analyzeConversationState ⟨⟨true, 50, 30, true, 2000⟩, ⟨true, true⟩⟩ none
          [] "hello" = createFlowState .INITIAL) :=
  ⟨⟨by decide, by decide⟩,
    c10_noAssistant_initial _ _ _ (by decide) (by decide)⟩

/-- C6: when the last assistant message solicits a delivery/tracking
number (it matches one of the delivery-number solicitation patterns, as
"What is your delivery number?" does) and the user replies
`"AB1234567890"`, the analyzer returns the ONGOING state — not
WAITING_FOR_INPUT — carrying `extracted_info = "AB1234567890"`. -/
theorem c6_deliveryReply_ongoing (settings : Settings)
    (conversation_history : List ConversationMessage) (m : ConversationMessage)
    (hlast : getLastAiMessage conversation_history = some m)
    (hsolicit : anySearch (waitingPatterns .DELIVERY_NUMBER) (pyLower m.content) = true) :
    (analyzeConversationState settings none conversation_history "AB1234567890").state
        = .ONGOING ∧
      (analyzeConversationState settings none conversation_history
        "AB1234567890").awaiting_input = false ∧
      (analyzeConversationState settings none conversation_history
        "AB1234567890").provided_info
        = some { has_requested_info := true, extracted_info := some "AB1234567890",
                 confidence := mkRat 9 10, response_type := some "delivery_number" } := by
  have hne : conversation_history ≠ [] := by
    intro h
    rw [h] at hlast
    simp [getLastAiMessage] at hlast
  have hreq : analyzeAiRequest m.content
      = some ⟨.DELIVERY_NUMBER, isUrgentRequest (pyLower m.content)⟩ := by
    simp only [analyzeAiRequest, inputTypeOrder, List.find?]
    rw [hsolicit]
  have hx : extractDeliveryNumbersFlow "AB1234567890" = ["AB1234567890"] := by decide
  have hresp : analyzeUserResponse "AB1234567890"
      ⟨.DELIVERY_NUMBER, isUrgentRequest (pyLower m.content)⟩
      = { has_requested_info := true, extracted_info := some "AB1234567890",
          confidence := mkRat 9 10, response_type := some "delivery_number" } := by
    simp [analyzeUserResponse, hx]
  simp only [analyzeConversationState, analyzeConversationStateBody, hlast, hreq]
  rw [if_neg hne]
  simp [hresp, createFlowState]

/-- C6 witness: the spec's own scenario message. -/
theorem c6_deliveryReply_ongoing_witness :
    (getLastAiMessage [⟨"assistant", "What is your delivery number?", 0⟩]
        = some (⟨"assistant", "What is your delivery number?", 0⟩ : ConversationMessage) ∧
      anySearch (waitingPatterns .DELIVERY_NUMBER)
        (pyLower (⟨"assistant", "What is your delivery number?", 0⟩ :
          ConversationMessage).content) = true) ∧
      ((analyzeConversationState ⟨⟨true, 50, 30, true, 2000⟩, ⟨true, true⟩⟩ none
          [⟨"assistant", "What is your delivery number?", 0⟩] "AB1234567890").state
          = .ONGOING ∧
        (analyzeConversationState ⟨⟨true, 50, 30, true, 2000⟩, ⟨true, true⟩⟩ none
          [⟨"assistant", "What is your delivery number?", 0⟩] "AB1234567890").awaiting_input
          = false ∧
        (analyzeConversationState ⟨⟨true, 50, 30, true, 2000⟩, ⟨true, true⟩⟩ none
          [⟨"assistant", "What is your delivery number?", 0⟩] "AB1234567890").provided_info
          = some { has_requested_info := true, extracted_info := some "AB1234567890",
                   confidence := mkRat 9 10, response_type := some "delivery_number" }) :=
  ⟨⟨by decide, by decide⟩,
    c6_deliveryReply_ongoing ⟨⟨true, 50, 30, true, 2000⟩, ⟨true, true⟩⟩
      [⟨"assistant", "What is your delivery number?", 0⟩]
      ⟨"assistant", "What is your delivery number?", 0⟩ (by decide) (by decide)⟩

end GenaiRag

namespace GenaiRag

/-- C4: a message longer than `guardrails.max_input_length` makes
`validate_user_message` fail with the length `ValidationError`, and
`process_message` then aborts before step 3: the history store is
unchanged — no user (or assistant) message is persisted for the turn. -/
theorem c4_longMessage_rejected_nothing_persisted (settings : Settings) (env : ChatEnv)
    (db : Db) (h : ViolationHistory) (session_id message : String)
    (hlen : settings.guardrails.max_input_length < message.length) :
    validateUserMessage settings env.now h message session_id
        (getConversationHistory db session_id)
        = (h, some (msgTooLong settings.guardrails.max_input_length)) ∧
      processMessage settings env db h session_id message
        = (db, h, Except.error (msgTooLong settings.guardrails.max_input_length)) := by
  have hchk : checkMessageLength settings message
      = some (msgTooLong settings.guardrails.max_input_length) := by
    simp only [checkMessageLength]
    rw [if_pos hlen]
  have hval : validateUserMessage settings env.now h message session_id
      (getConversationHistory db session_id)
      = (h, some (msgTooLong settings.guardrails.max_input_length)) := by
    simp only [validateUserMessage, hchk]
  exact ⟨hval, by simp only [processMessage, hval]⟩

/-- C4 witness: a 4-character cap and the 5-character message `"hello"`. -/
theorem c4_longMessage_rejected_nothing_persisted_witness :
    ((⟨⟨true, 50, 30, true, 4⟩, ⟨true, true⟩⟩ : Settings).guardrails.max_input_length
        < ("hello" : String).length) ∧
      (validateUserMessage ⟨⟨true, 50, 30, true, 4⟩, ⟨true, true⟩⟩
          (⟨0, none, none, true, Except.ok "t",
            fun _ _ => Except.ok ("resp", 1, 1)⟩ : ChatEnv).now
          (fun _ => []) "hello" "s1" (getConversationHistory [] "s1")
          = ((fun _ => []), some (msgTooLong 4)) ∧
        processMessage ⟨⟨true, 50, 30, true, 4⟩, ⟨true, true⟩⟩
          ⟨0, none, none, true, Except.ok "t", fun _ _ => Except.ok ("resp", 1, 1)⟩
          [] (fun _ => []) "s1" "hello"
          = ([], (fun _ => []), Except.error (msgTooLong 4))) :=
  ⟨by decide,
    c4_longMessage_rejected_nothing_persisted ⟨⟨true, 50, 30, true, 4⟩, ⟨true, true⟩⟩
      ⟨0, none, none, true, Except.ok "t", fun _ _ => Except.ok ("resp", 1, 1)⟩
      [] (fun _ => []) "s1" "hello" (by decide)⟩

/-- C2 counterexample: an internal flow-analyzer failure does *not*
degrade the flow state to ONGOING — the `except` handler of
`analyze_conversation_state` returns the ERROR state. -/
theorem c2_flowError_counterexample :
    (analyzeConversationState ⟨⟨true, 50, 30, true, 2000⟩, ⟨true, true⟩⟩ (some "boom")
        [] "hi").state ≠ ConversationState.ONGOING ∧
      (analyzeConversationState ⟨⟨true, 50, 30, true, 2000⟩, ⟨true, true⟩⟩ (some "boom")
        [] "hi").state = ConversationState.ERROR := by
  decide

/-- C2 (amended): an internal flow-analyzer failure degrades the computed
flow state to ERROR (carrying the error text) — not ONGOING — and the turn
is not aborted: `process_message` still runs tool detection, invokes the
LLM, and persists both turns whenever input validation passed and the LLM
call succeeds. -/
theorem c2_flowError_error_state_turn_continues (settings : Settings) (env : ChatEnv)
    (db : Db) (h : ViolationHistory) (session_id message e a : String) (i o : Nat)
    (hflow : env.flowInternalError = some e)
    (hval : (validateUserMessage settings env.now h message session_id
        (getConversationHistory db session_id)).2 = none)
    (hllm : env.llmOutcome = fun _ _ => Except.ok (a, i, o)) :
    analyzeConversationState settings env.flowInternalError
        (getConversationHistory db session_id) message
        = { createFlowState .ERROR with error := some e } ∧
      (processMessage settings env db h session_id message).2.2
        = Except.ok
            { response := validateAiResponse a message session_id,
              input_tokens := i, output_tokens := o,
              tool_called := (analyzeMessage settings env.detectorInternalError message
                (getConversationHistory db session_id)).tool_required,
              tool_name :=
                if (analyzeMessage settings env.detectorInternalError message
                    (getConversationHistory db session_id)).tool_required then
                  (analyzeMessage settings env.detectorInternalError message
                    (getConversationHistory db session_id)).tool_name
                else none,
              session_id := session_id } ∧
      (processMessage settings env db h session_id message).1
        = saveAiMessage (saveUserMessage db session_id message env.now) session_id
            (validateAiResponse a message session_id) env.now := by
  refine ⟨by rw [hflow]; rfl, ?_, ?_⟩ <;>
  · rcases hv : validateUserMessage settings env.now h message session_id
      (getConversationHistory db session_id) with ⟨h1, err⟩
    rw [hv] at hval
    simp only at hval
    subst hval
    simp only [processMessage, hv, hllm]

/-- C2 witness: a concrete turn whose flow analysis fails with `"boom"`. -/
theorem c2_flowError_error_state_turn_continues_witness :
    ((⟨0, some "boom", none, true, Except.ok "t",
        fun _ _ => Except.ok ("resp", 3, 4)⟩ : ChatEnv).flowInternalError = some "boom" ∧
      (validateUserMessage ⟨⟨true, 50, 30, true, 2000⟩, ⟨true, true⟩⟩ 0 (fun _ => [])
        "hello" "s1" (getConversationHistory [] "s1")).2 = none) ∧
      (analyzeConversationState ⟨⟨true, 50, 30, true, 2000⟩, ⟨true, true⟩⟩
          (some "boom") (getConversationHistory [] "s1") "hello"
          = { createFlowState .ERROR with error := some "boom" } ∧
        (processMessage ⟨⟨true, 50, 30, true, 2000⟩, ⟨true, true⟩⟩
            ⟨0, some "boom", none, true, Except.ok "t",
              fun _ _ => Except.ok ("resp", 3, 4)⟩
            [] (fun _ => []) "s1" "hello").2.2
          = Except.ok
              { response := validateAiResponse "resp" "hello" "s1",
                input_tokens := 3, output_tokens := 4,
                tool_called := (analyzeMessage ⟨⟨true, 50, 30, true, 2000⟩, ⟨true, true⟩⟩
                  none "hello" (getConversationHistory [] "s1")).tool_required,
                tool_name :=
                  if (analyzeMessage ⟨⟨true, 50, 30, true, 2000⟩, ⟨true, true⟩⟩
                      none "hello" (getConversationHistory [] "s1")).tool_required then
                    (analyzeMessage ⟨⟨true, 50, 30, true, 2000⟩, ⟨true, true⟩⟩
                      none "hello" (getConversationHistory [] "s1")).tool_name
                  else none,
                session_id := "s1" } ∧
        (processMessage ⟨⟨true, 50, 30, true, 2000⟩, ⟨true, true⟩⟩
            ⟨0, some "boom", none, true, Except.ok "t",
              fun _ _ => Except.ok ("resp", 3, 4)⟩
            [] (fun _ => []) "s1" "hello").1
          = saveAiMessage (saveUserMessage [] "s1" "hello" 0) "s1"
              (validateAiResponse "resp" "hello" "s1") 0) :=
  ⟨⟨rfl, by decide⟩,
    c2_flowError_error_state_turn_continues ⟨⟨true, 50, 30, true, 2000⟩, ⟨true, true⟩⟩
      ⟨0, some "boom", none, true, Except.ok "t", fun _ _ => Except.ok ("resp", 3, 4)⟩
      [] (fun _ => []) "s1" "hello" "boom" "resp" 3 4 rfl (by decide) rfl⟩

end GenaiRag

namespace GenaiRag

/-- A passing inappropriate-content check leaves the ledger unchanged. -/
lemma checkInappropriateContent_pass (settings : Settings) (now : Int)
    (h : ViolationHistory) (message session_id : String)
    (hpass : (checkInappropriateContent settings now h message session_id).2 = none) :
    checkInappropriateContent settings now h message session_id = (h, none) := by
  revert hpass
  simp only [checkInappropriateContent]
  split_ifs <;> simp

/-- A passing sensitive-information check leaves the ledger unchanged. -/
lemma checkSensitiveInformation_pass (now : Int) (h : ViolationHistory)
    (message session_id : String)
    (hpass : (checkSensitiveInformation now h message session_id).2 = none) :
    checkSensitiveInformation now h message session_id = (h, none) := by
  revert hpass
  simp only [checkSensitiveInformation]
  split_ifs <;> simp

/-- C3 counterexample: the *second* consecutive identical `"help"` (one
earlier copy inside the 5-turn window) is accepted — the duplicate count
over the *history* window is 1, below the `>= 2` rejection bound of
`_check_repetitive_patterns`, and no other check fires. -/
theorem c3_secondSend_accepted_counterexample :
    (validateUserMessage ⟨⟨true, 50, 30, true, 2000⟩, ⟨true, true⟩⟩ 0 (fun _ => [])
        "help" "s1"
        [⟨"user", "help", 0⟩, ⟨"assistant", "How can I assist you today?", 0⟩]).2
      = none := by
  decide

/-- C3 (amended): the repetition ValidationError fires on the send whose
preceding 5-message window already contains at least two identical copies
of the message — i.e. on the *third* consecutive identical send, not the
second — provided the earlier checks pass (length, content filter,
sensitive data, general chat enabled, conversation limits). -/
theorem c3_repetition_on_two_prior_copies (settings : Settings) (now : Int)
    (h : ViolationHistory) (message session_id : String)
    (conversation_history : List ConversationMessage)
    (hdup : 2 ≤ (((listLastN 5 conversation_history).filter
        (fun m => m.role = "user")).map (fun m => m.content)).count message)
    (hl : checkMessageLength settings message = none)
    (hia : (checkInappropriateContent settings now h message session_id).2 = none)
    (hsi : (checkSensitiveInformation now h message session_id).2 = none)
    (hgc : settings.guardrails.enable_general_chat = true)
    (hcl : checkConversationLimits settings now conversation_history = none) :
    (validateUserMessage settings now h message session_id conversation_history).2
      = some msgRepetitive := by
  have hlen2 : ¬ conversation_history.length < 2 := by
    have hc1 : 2 ≤ (((listLastN 5 conversation_history).filter
        (fun m => m.role = "user")).map (fun m => m.content)).length :=
      le_trans hdup (List.count_le_length _ _)
    rw [List.length_map] at hc1
    have hc2 := List.length_filter_le
      (fun (m : ConversationMessage) => decide (m.role = "user"))
      (listLastN 5 conversation_history)
    have hc3 : (listLastN 5 conversation_history).length
        ≤ conversation_history.length := by
      simp only [listLastN, List.length_drop]
      omega
    omega
  have hite : (if !settings.guardrails.enable_general_chat then
      checkToolRelevance now h message conversation_history session_id
    else (h, none)) = (h, none) := by
    rw [hgc]
    rfl
  have hrep : checkRepetitivePatterns now h message conversation_history session_id
      = (recordViolation now h session_id ⟨"repetitive_message", now⟩,
          some msgRepetitive) := by
    simp only [checkRepetitivePatterns]
    rw [if_neg hlen2, if_pos hdup]
  simp only [validateUserMessage, hl,
    checkInappropriateContent_pass settings now h message session_id hia,
    checkSensitiveInformation_pass now h message session_id hsi,
    hite, hcl, hrep]

/-- C3 witness: the third consecutive `"help"` in a session. -/
theorem c3_repetition_on_two_prior_copies_witness :
    (2 ≤ (((listLastN 5 ([⟨"user", "help", 0⟩, ⟨"assistant", "Hello!", 0⟩,
            ⟨"user", "help", 0⟩, ⟨"assistant", "Hello again!", 0⟩] :
            List ConversationMessage)).filter
          (fun m => m.role = "user")).map (fun m => m.content)).count "help" ∧
        checkMessageLength ⟨⟨true, 50, 30, true, 2000⟩, ⟨true, true⟩⟩ "help" = none ∧
        (checkInappropriateContent ⟨⟨true, 50, 30, true, 2000⟩, ⟨true, true⟩⟩ 0
          (fun _ => []) "help" "s1").2 = none ∧
        (checkSensitiveInformation 0 (fun _ => []) "help" "s1").2 = none ∧
        checkConversationLimits ⟨⟨true, 50, 30, true, 2000⟩, ⟨true, true⟩⟩ 0
          [⟨"user", "help", 0⟩, ⟨"assistant", "Hello!", 0⟩,
           ⟨"user", "help", 0⟩, ⟨"assistant", "Hello again!", 0⟩] = none) ∧
      (validateUserMessage ⟨⟨true, 50, 30, true, 2000⟩, ⟨true, true⟩⟩ 0 (fun _ => [])
          "help" "s1"
          [⟨"user", "help", 0⟩, ⟨"assistant", "Hello!", 0⟩,
           ⟨"user", "help", 0⟩, ⟨"assistant", "Hello again!", 0⟩]).2
        = some msgRepetitive :=
  ⟨⟨by decide, by decide, by decide, by decide, by decide⟩,
    c3_repetition_on_two_prior_copies ⟨⟨true, 50, 30, true, 2000⟩, ⟨true, true⟩⟩ 0
      (fun _ => []) "help" "s1"
      [⟨"user", "help", 0⟩, ⟨"assistant", "Hello!", 0⟩,
       ⟨"user", "help", 0⟩, ⟨"assistant", "Hello again!", 0⟩]
      (by decide) (by decide) (by decide) (by decide) rfl (by decide)⟩

end GenaiRag
